import Mathlib

/-!
Formal model of parts of the AMD Tootle triangle-mesh optimization library
(TootleLib), shallowly embedded in Lean 4.  Machine integers are modelled as
`Nat` with explicit reduction modulo `2 ^ 32` where 32-bit unsigned overflow
matters; IEEE floats are modelled by exact rationals (`ℚ`), with square roots
taken at the `ℝ` level only inside theorem statements; fallible allocation is
modelled by explicit success flags.
-/

namespace TootleModel

/-- Modelled from the spec: `vector.h` (class `Vector3` with `operator-`,
`Cross`, `Norm2`) is not under src/.  The spec fixes the cross-product
normal formula and that `Norm2` of an edge difference is the squared edge
length.  Components are exact rationals in place of IEEE floats. -/
structure Vector3 where
  x : ℚ
  y : ℚ
  z : ℚ
deriving DecidableEq

instance : Inhabited Vector3 := ⟨⟨0, 0, 0⟩⟩

instance : Add Vector3 := ⟨fun a b => ⟨a.x + b.x, a.y + b.y, a.z + b.z⟩⟩

instance : Sub Vector3 := ⟨fun a b => ⟨a.x - b.x, a.y - b.y, a.z - b.z⟩⟩

/-- Modelled from the spec: squared Euclidean length (`Norm2` of `vector.h`). -/
def norm2 (v : Vector3) : ℚ := v.x * v.x + v.y * v.y + v.z * v.z

/-- Modelled from the spec: the cross product used by the normal formula
`normalize((V[i0]-V[i1]) x (V[i1]-V[i2]))`. -/
def cross (a b : Vector3) : Vector3 :=
  ⟨a.y * b.z - a.z * b.y, a.z * b.x - a.x * b.z, a.x * b.y - a.y * b.x⟩

/-- `Soup::Triangle` (soup.h): three vertex indices `vi[3]`.  The indices are
`int` in the source; valid meshes only hold non-negative indices, modelled as
`Nat`. -/
structure Triangle where
  i0 : Nat
  i1 : Nat
  i2 : Nat
deriving DecidableEq

instance : Inhabited Triangle := ⟨⟨0, 0, 0⟩⟩

/-- The parts of `Soup` (soup.h / cloud.h) the modelled operations touch:
vertex positions `v()`, vertex normals `n()`, triangles `t()`, and the cached
characteristic-resolution field `r` (constructed as `-1`).  The model stores
in `rsq` the SQUARE of the cached resolution `r` (sentinel `-1` unchanged):
the code only ever writes `r = sqrt(s)` with `s ≥ 0` and reads it through the
sign test `r > 0.0` and as the output value, and `sqrt(s) > 0 ↔ s > 0`, so
the squared model is faithful; theorem statements apply `Real.sqrt` to
recover the stored float. -/
structure Soup where
  v : List Vector3
  n : List Vector3
  t : List Triangle
  rsq : ℚ
deriving DecidableEq

/-- `v(i)` vertex access (cloud.h); out-of-range access is undefined in the
source and defaults here (theorems carry validity hypotheses). -/
def vAt (s : Soup) (i : Nat) : Vector3 := s.v.getD i default

/-- `t(j)` triangle access (soup.h). -/
def tAt (s : Soup) (j : Nat) : Triangle := s.t.getD j default

/-- `2 ^ 32`, the modulus of C++ `unsigned` arithmetic. -/
def u32 : Nat := 4294967296

/-- One step of the random number generator inside `Soup::ComputeResolution`
(soup.cpp line 77): `randq = unsigned(1664525) * randq + unsigned(1013904223)`
on 32-bit unsigned arithmetic.  `randq` is a function-local `static unsigned`
initialized to 0 at process start, so its state persists across calls; the
model threads it explicitly. -/
def lcgStep (x : Nat) : Nat := (1664525 * x + 1013904223) % u32

/-- The squared length of the edge from vertex `t(j)[0]` to vertex `t(j)[1]`
of triangle `j`: the value the sampling loop in `Soup::ComputeResolution`
writes into `samples[3*i + 0]`, i.e. `Norm2(v0 - v1)` (soup.cpp line 82). -/
def firstEdgeSq (s : Soup) (j : Nat) : ℚ :=
  norm2 (vAt s (tAt s j).i0 - vAt s (tAt s j).i1)

/-- Result of `Soup::ComputeResolution`: return code (`1`/`0`), the value
written through the `resolution` out-parameter (`none` when nothing defined
was written), the updated soup (cache field `r`), and the updated LCG state.
As for `Soup.rsq`, `resSq` holds the square of the written float. -/
structure ResOut where
  ret : Nat
  resSq : Option ℚ
  soup : Soup
  randq : Nat
deriving DecidableEq

/-- `Soup::ComputeResolution` (soup.cpp lines 53-92).  Control flow follows
the source: `nf < 1 || (r > 0.0 && !force)` returns the cached `r`;
`samples.Reserve(nsamp*3)` failure returns 0 (`allocOk` models the
allocation); otherwise `nsamp = min(nf/2, 333)` triangles are sampled with
the LCG.  Crucially, `Reserve` only reserves capacity, so `samples.size()`
stays 0: the loop writes through `operator[]` into reserved storage,
`nth_element(begin, begin + 0, end)` sorts an empty range (a no-op), and
`samples[samples.size()/2] = samples[0]` reads back the value written on the
first loop iteration - the first squared edge length of the first sampled
triangle - NOT a median.  When `nsamp = 0` (i.e. `nf = 1`) the read is of
unwritten out-of-bounds storage; the model records `resSq = none` and an
arbitrary cache value for that undefined case. -/
def computeResolution (s : Soup) (force : Bool) (allocOk : Bool) (randq : Nat) :
    ResOut :=
  let nf := s.t.length
  if nf < 1 ∨ (s.rsq > 0 ∧ force = false) then
    ⟨1, some s.rsq, s, randq⟩
  else if allocOk = false then
    ⟨0, none, s, randq⟩
  else
    let nsamp := if nf / 2 > 333 then 333 else nf / 2
    let randqEnd := lcgStep^[nsamp] randq
    if 1 ≤ nsamp then
      let j0 := lcgStep randq % nf
      let sq := firstEdgeSq s j0
      ⟨1, some sq, { s with rsq := sq }, randqEnd⟩
    else
      ⟨1, none, { s with rsq := 0 }, randqEnd⟩

/-- The squared value stored through `*resolution` by a successful
`ComputeResolution(resolution, false)` call (0 for the undefined
`nf = 1` read). -/
def resolutionSqOf (s : Soup) (randq : Nat) : ℚ :=
  ((computeResolution s false true randq).resSq).getD 0

/-- The LCG state after a `ComputeResolution(resolution, false)` call. -/
def lcgAfterRun (s : Soup) (randq : Nat) : Nat :=
  (computeResolution s false true randq).randq

/-- Insertion into a sorted rational list (used only by the spec-side median
definition below). -/
def insertQ (x : ℚ) : List ℚ → List ℚ
  | [] => [x]
  | y :: ys => if x ≤ y then x :: y :: ys else y :: insertQ x ys

/-- Insertion sort on rationals (used only by the spec-side median). -/
def sortQ (l : List ℚ) : List ℚ := l.foldr insertQ []

/-- The successive LCG states producing the `k` sample indices. -/
def lcgStates (randq : Nat) : Nat → List Nat
  | 0 => []
  | k + 1 => lcgStep randq :: lcgStates (lcgStep randq) k

/-- The three squared edge lengths of triangle `j` written by one iteration
of the sampling loop (soup.cpp lines 82-84). -/
def triEdgeSamples (s : Soup) (j : Nat) : List ℚ :=
  [norm2 (vAt s (tAt s j).i0 - vAt s (tAt s j).i1),
   norm2 (vAt s (tAt s j).i1 - vAt s (tAt s j).i2),
   norm2 (vAt s (tAt s j).i2 - vAt s (tAt s j).i0)]

/-- Follows the spec's words (`characteristic_edge_length`, spec 4.A): the
median of the squared edge lengths of the sampled triangles - three squared
edge lengths per triangle, triangles sampled with replacement by the LCG
exactly as in the code (`min(nf/2, 333)` samples).  The median of an
`n`-element collection is the element at position `n / 2` in sorted order.
This definition exists solely to be compared against the value the code
actually stores. -/
def resolutionSpecMedianSq (s : Soup) (randq : Nat) : ℚ :=
  let nf := s.t.length
  let nsamp := if nf / 2 > 333 then 333 else nf / 2
  let js := (lcgStates randq nsamp).map (fun q => q % nf)
  let samples := (js.map (triEdgeSamples s)).flatten
  (sortQ samples).getD (samples.length / 2) 0

/-- Vertex data shared by the `ComputeResolution` counterexamples: four
points at exact float coordinates. -/
def cexVerts : List Vector3 :=
  [⟨0, 0, 0⟩, ⟨1, 0, 0⟩, ⟨0, 2, 0⟩, ⟨3, 0, 0⟩]

/-- Two triangles over `cexVerts`: triangle 0 has first squared edge length
9, triangle 1 has squared edge lengths 1, 5, 4 (first edge 1, median 4). -/
def cexTris : List Triangle := [⟨0, 3, 2⟩, ⟨0, 1, 2⟩]

/-- A freshly constructed soup (cache `r = -1`, as set by the `Soup`
constructor) holding the given data. -/
def freshSoup (vl : List Vector3) (tl : List Triangle) : Soup :=
  ⟨vl, [], tl, -1⟩

/-- `Array<T>::PushBack` (array.h lines 19-25): `try { push_back(value); }
catch (...) { return 0; } return 1;`.  `std::vector::push_back` gives the
strong exception guarantee (and the element types used are no-throw
copyable), so a throwing call leaves the vector unchanged; `allocOk` models
whether the underlying `push_back` throws. -/
def pushBack {α : Type} (arr : List α) (value : α) (allocOk : Bool) :
    List α × Nat :=
  if allocOk then (arr ++ [value], 1) else (arr, 0)

/-- `Soup::ComputeNormals` accumulation step: `n(t(i)[k]) += tn` (soup.cpp
lines 39-41); out-of-range vertex indices are undefined in the source and a
no-op here (theorems carry validity hypotheses where needed). -/
def addAt (ns : List Vector3) (i : Nat) (w : Vector3) : List Vector3 :=
  ns.set i (ns.getD i default + w)

/-- The triangle-normal accumulation loop body of `Soup::ComputeNormals`
(soup.cpp lines 32-42): `tn = Cross(p0 - p1, p1 - p2)` added to the normal
of each of the triangle's three vertices. -/
def accumulateNormal (vl : List Vector3) (ns : List Vector3) (tri : Triangle) :
    List Vector3 :=
  let p0 := vl.getD tri.i0 default
  let p1 := vl.getD tri.i1 default
  let p2 := vl.getD tri.i2 default
  let tn := cross (p0 - p1) (p1 - p2)
  addAt (addAt (addAt ns tri.i0 tn) tri.i1 tn) tri.i2 tn

/-- `Soup::ComputeNormals` (soup.cpp lines 11-51).  If the normal array size
already equals the vertex array size and `force` is false, returns 1 without
touching the soup.  Otherwise `n()` is resized to the vertex count (`allocOk`
models the allocation; on failure `Resize` returns 0 and, by the strong
guarantee of `std::vector::resize`, leaves the soup unchanged), zero-filled,
accumulated with triangle cross products, and each entry passed to
`Normalize`.  `Normalize` lives in `vector.h`, which is not under src/;
it is passed in as the parameter `normalizeF`, since only the state shape
matters for the claims settled here. -/
def computeNormals (s : Soup) (force : Bool) (allocOk : Bool)
    (normalizeF : Vector3 → Vector3) : Soup × Nat :=
  if s.n.length = s.v.length ∧ force = false then (s, 1)
  else if allocOk = false then (s, 0)
  else
    let base := List.replicate s.v.length (default : Vector3)
    let acc := s.t.foldl (accumulateNormal s.v) base
    ({ s with n := acc.map normalizeF }, 1)

/-! Overdraw module (overdraw.cpp).  `TootleResult`, `t_edge`,
`TootleOverdrawTable` and `TootleOverdrawOptimizer` are declared in headers
that are not under src/ (tootlelib.h, overdraw.h, TootleRaytracer.h); they
are modelled from the spec below. -/

/-- Modelled from the spec: status codes of section 6 (`OK`, `INVALID_ARGS`,
`OUT_OF_MEMORY`, `INTERNAL_ERROR`, `NOT_INITIALIZED`) plus the
`TOOTLE_3D_API_ERROR` named in overdraw.cpp's comments; `tootlelib.h` is not
under src/. -/
inductive TootleResult where
  | TOOTLE_OK
  | TOOTLE_INVALID_ARGS
  | TOOTLE_OUT_OF_MEMORY
  | TOOTLE_INTERNAL_ERROR
  | TOOTLE_NOT_INITIALIZED
  | TOOTLE_3D_API_ERROR
deriving DecidableEq

/-- Modelled from the spec: the overdraw optimizer selector of section 6
(`{AUTO, RAYTRACE, FAST}`); its header is not under src/. -/
inductive TootleOverdrawOptimizer where
  | TOOTLE_OVERDRAW_AUTO
  | TOOTLE_OVERDRAW_RAYTRACE
  | TOOTLE_OVERDRAW_FAST
deriving DecidableEq

/-- Modelled from the spec: `t_edge`, a weighted directed edge of the
overdraw graph with fields `from`, `to`, `cost` (cost `O[i][j] - O[j][i]`,
an integer); its header is not under src/.  `from` is a Lean keyword, so the
fields are named `efrom`/`eto`. -/
structure TEdge where
  efrom : Nat
  eto : Nat
  cost : Int
deriving DecidableEq

/-- Entry `O[i][j]` of a per-cluster overdraw table
(`TootleOverdrawTable fullgraph`, a square matrix of counts, modelled from
the spec as a list of rows of naturals). -/
def tableAt (tbl : List (List Nat)) (i j : Nat) : Nat :=
  (tbl.getD i []).getD j 0

/-- The edge-extraction double loop of `ODComputeGraphRaytrace`
(overdraw.cpp lines 113-130): for every `i`, `j` below `nClusters`, if
`fullgraph[i][j] > fullgraph[j][i]` push the edge
`(i, j, fullgraph[i][j] - fullgraph[j][i])`. -/
def extractGraph (tbl : List (List Nat)) (nClusters : Nat) : List TEdge :=
  (List.range nClusters).flatMap (fun i =>
    (List.range nClusters).flatMap (fun j =>
      if tableAt tbl i j > tableAt tbl j i then
        [⟨i, j, (tableAt tbl i j : Int) - (tableAt tbl j i : Int)⟩]
      else []))

/-- `ODComputeGraphRaytrace` (overdraw.cpp lines 53-133).  The ray tracer
itself (`TootleRaytracer`, not under src/) is abstracted: `tbl` is the
per-cluster overdraw table `tr.CalculateOverdraw` fills in, and `allocOk`
collapses the allocation-failure paths (`ComputeTriNormals`, table resize,
`tr.Init`, `tr.CalculateOverdraw`, `PushBack`), each of which returns
`TOOTLE_OUT_OF_MEMORY`; the exact partial contents of `rGraphOut` on those
failure paths are not modelled.  On success the extracted edges are appended
to `rGraphOut` (`graphIn`). -/
def odComputeGraphRaytrace (_pSoup : Soup) (_clusters : List Int)
    (tbl : List (List Nat)) (nClusters : Nat) (graphIn : List TEdge)
    (allocOk : Bool) : TootleResult × List TEdge :=
  if allocOk = false then (TootleResult.TOOTLE_OUT_OF_MEMORY, graphIn)
  else (TootleResult.TOOTLE_OK, graphIn ++ extractGraph tbl nClusters)

/-- The overdraw module's process-wide state (overdraw.cpp lines 20-24):
`static bool s_bInitialized = false;` and `static Soup* s_pSoup = NULL;`. -/
structure ODState where
  initFlag : Bool
  soup : Option Soup

/-- The state both statics start in. -/
def odStartState : ODState := ⟨false, none⟩

/-- `ODInit` (overdraw.cpp lines 147-150): the body is just
`return TOOTLE_OK;` - in particular it does NOT set `s_bInitialized`. -/
def odInit (st : ODState) : ODState × TootleResult :=
  (st, TootleResult.TOOTLE_OK)

/-- `ODSetSoup` (overdraw.cpp lines 172-177): stores the soup pointer and
returns `TOOTLE_OK`. -/
def odSetSoup (st : ODState) (pSoup : Soup) : ODState × TootleResult :=
  ({ st with soup := some pSoup }, TootleResult.TOOTLE_OK)

/-- `ODOverdrawGraph` (overdraw.cpp lines 301-333): returns
`TOOTLE_INTERNAL_ERROR` if `!s_bInitialized || !s_pSoup`, or if the cluster
array size differs from the soup's triangle count, or if the optimizer is
not `TOOTLE_OVERDRAW_RAYTRACE`; otherwise dispatches to
`ODComputeGraphRaytrace` with `nClusters = rClusterStart.size() - 1`. -/
def odOverdrawGraph (st : ODState) (clusters : List Int)
    (clusterStart : List Int) (tbl : List (List Nat)) (graphIn : List TEdge)
    (opt : TootleOverdrawOptimizer) (allocOk : Bool) :
    TootleResult × List TEdge :=
  match st.soup with
  | none => (TootleResult.TOOTLE_INTERNAL_ERROR, graphIn)
  | some pSoup =>
    if st.initFlag = false then (TootleResult.TOOTLE_INTERNAL_ERROR, graphIn)
    else if clusters.length ≠ pSoup.t.length then
      (TootleResult.TOOTLE_INTERNAL_ERROR, graphIn)
    else
      match opt with
      | TootleOverdrawOptimizer.TOOTLE_OVERDRAW_RAYTRACE =>
          odComputeGraphRaytrace pSoup clusters tbl (clusterStart.length - 1)
            graphIn allocOk
      | _ => (TootleResult.TOOTLE_INTERNAL_ERROR, graphIn)

/-! Mesh adjacency (mesh.h). -/

/-- The vertex indices of a triangle, in slot order. -/
def triVerts (tri : Triangle) : List Nat := [tri.i0, tri.i1, tri.i2]

/-- The three directed edges `(t(f)[i], t(f)[(i+1)%3])` for `i = 0, 1, 2`
scanned by `Mesh::ComputeAE` (mesh.h lines 113-118). -/
def triEdges (tri : Triangle) : List (Nat × Nat) :=
  [(tri.i0, tri.i1), (tri.i1, tri.i2), (tri.i2, tri.i0)]

/-- `vtOut[i].PushBack(f)` (mesh.h line 93); out-of-range `i` is undefined
in the source and a no-op here. -/
def pushVT (vt : List (List Nat)) (i : Nat) (f : Nat) : List (List Nat) :=
  vt.set i (vt.getD i [] ++ [f])

/-- The face loop of `Mesh::ComputeVT` (mesh.h lines 87-95): for face `f`,
append `f` to the lists of its three vertices, faces in order. -/
def computeVTAux (vt : List (List Nat)) (f : Nat) :
    List Triangle → List (List Nat)
  | [] => vt
  | tri :: rest =>
      computeVTAux (pushVT (pushVT (pushVT vt tri.i0 f) tri.i1 f) tri.i2 f)
        (f + 1) rest

/-- `Mesh::ComputeVT` (mesh.h lines 74-99): `vtOut` is resized to the vertex
count and filled by the face loop.  (Resize failure returns 0 and is not
modelled; the claims hypothesize success.) -/
def computeVT (tris : List Triangle) (nv : Nat) : List (List Nat) :=
  computeVTAux (List.replicate nv []) 0 tris

/-- The body of `Mesh::ComputeAE` for one face `f` (mesh.h lines 111-143):
for each directed edge `(v, vn)` of `t(f)`, every face `af` in `vt[v]` with
`af != f` is pushed once for each slot `k` with `t(af)[k] == vn`. -/
def aeRow (tris : List Triangle) (vt : List (List Nat)) (f : Nat)
    (tri : Triangle) : List Nat :=
  (triEdges tri).flatMap (fun e =>
    (vt.getD e.1 []).flatMap (fun af =>
      if af ≠ f then
        (triVerts (tris.getD af default)).filterMap
          (fun w => if w = e.2 then some af else none)
      else []))

/-- `Mesh::ComputeAE` (mesh.h lines 102-147): `ae()` is resized to the
triangle count and row `f` is filled from face `t(f)`.  (`PushBack` failure
returns 0 and is not modelled; the claims hypothesize success.) -/
def computeAE (tris : List Triangle) (vt : List (List Nat)) :
    List (List Nat) :=
  (List.range tris.length).map (fun f => aeRow tris vt f (tris.getD f default))

/-! Ray tracer mesh (JRTMesh.h / JRTMesh.cpp).  `JRTTriangle` stores raw
`const float*` pointers into the mesh's position array; a pointer
`&m_pPositions[idx]` is modelled as the float offset `3 * idx` from
`m_pPositions`, which is exact for the in-bounds pointers the source
creates. -/

/-- `JRTTriangle` (JRTMesh.h lines 96-133): the three vertex-position
pointers, as float offsets from `m_pPositions`. -/
structure JRTTri where
  pV1 : Nat
  pV2 : Nat
  pV3 : Nat
deriving DecidableEq

instance : Inhabited JRTTri := ⟨⟨0, 0, 0⟩⟩

/-- The fields of `JRTMesh` (JRTMesh.h lines 75-91) used by the modelled
operations.  `vertexNormals = none` models `m_pNormals == NULL`. -/
structure JRTMesh where
  positions : List Vector3
  faceNormals : List Vector3
  vertexNormals : Option (List Vector3)
  triangles : List JRTTri

/-- `JRTMesh::CreateMesh` (JRTMesh.cpp lines 24-65): copies `nVertices`
positions and `nTriangleCount` face normals, leaves `m_pNormals` NULL (the
constructor nulls it and `CreateMesh` never assigns it), and for each
triangle `i` stores pointers `&m_pPositions[pIndices[3i + k]]` (offsets
`3 * pIndices[3i + k]`). -/
def createMesh (pPositions : List Vector3) (pNormals : List Vector3)
    (nVertices nTriangleCount : Nat) (pIndices : List Nat) : JRTMesh :=
  { positions := pPositions.take nVertices
    faceNormals := pNormals.take nTriangleCount
    vertexNormals := none
    triangles := (List.range nTriangleCount).map (fun i =>
      ⟨3 * pIndices.getD (3 * i) 0, 3 * pIndices.getD (3 * i + 1) 0,
       3 * pIndices.getD (3 * i + 2) 0⟩) }

/-- `JRTMesh::Transform` (JRTMesh.cpp lines 89-122).  `TransformPoint` and
`TransformVector` live in a math header not under src/; modelled from the
spec as parameters: `fPoint` is `TransformPoint` with the forward matrix
(`dest = M * src`), `fVector` is `TransformVector` with the
inverse-transpose, `normalizeF` is `Normalize`.  In the vertex-normal branch
each normal becomes `Normalize(TransformVector(n))`.  In the face-normal
branch the source copies the normal into `tmp`, writes the transformed
vector into `m_pFaceNormals[i]`, and then overwrites `m_pFaceNormals[i]`
with the untransformed `tmp` - modelled faithfully below by discarding the
transformed value. -/
def transform (m : JRTMesh) (fPoint fVector normalizeF : Vector3 → Vector3) :
    JRTMesh :=
  let pos := m.positions.map fPoint
  match m.vertexNormals with
  | some ns =>
      { m with positions := pos,
               vertexNormals := some (ns.map (fun nv => normalizeF (fVector nv))) }
  | none =>
      { m with positions := pos,
               faceNormals := m.faceNormals.map (fun nv =>
                 let tmp := nv
                 let _written := fVector tmp
                 tmp) }

/-- The index-recovery computation of `JRTMesh::GetInterpolants`
(JRTMesh.cpp lines 127-129): `nIndexK = (m_pTriangles[nTriIndex].m_pVK -
(const float*) m_pPositions) / 3` for the three vertex slots. -/
def getInterpolantsIndices (m : JRTMesh) (nTriIndex : Nat) :
    Nat × Nat × Nat :=
  let tri := m.triangles.getD nTriIndex default
  (tri.pV1 / 3, tri.pV2 / 3, tri.pV3 / 3)

/-- The address `&m_pTriangles[k]` of the `k`-th triangle, as an offset
from an arbitrary array base. -/
def triangleAddrOf (base k : Nat) : Nat := base + k

/-- `JRTTriangle::GetIndexInMesh` (JRTMesh.h line 113):
`(UINT)(this - m_pMesh->GetTriangles())`, pointer subtraction against the
start of the triangle array. -/
def getIndexInMesh (base addr : Nat) : Nat := addr - base

/-- The state `JRTMesh::RemoveTriangle` operates on: the triangle and
face-normal allocations (whose lengths stay fixed at the original triangle
count) together with the live count `m_nTriangleCount`.
`hasVertexNormals` models `m_pNormals != NULL`. -/
structure JRTMeshStore where
  triStore : List JRTTri
  faceNormStore : List Vector3
  hasVertexNormals : Bool
  count : Nat
deriving DecidableEq

/-- `JRTMesh::RemoveTriangle` (JRTMesh.cpp lines 143-162): guarded by
`nTri <= m_nTriangleCount` (note `<=`, not `<`), it swaps
`m_pTriangles[m_nTriangleCount - 1]` with `m_pTriangles[nTri]`, swaps the
face normals likewise when there are no per-vertex normals, and decrements
`m_nTriangleCount`.  `m_nTriangleCount - 1` is C++ `unsigned` arithmetic,
modelled as `(count + (u32 - 1)) % u32`; reads of slots outside the
allocation (possible exactly in the out-of-range cases the `<=` admits)
default. -/
def removeTriangle (m : JRTMeshStore) (nTri : Nat) : JRTMeshStore :=
  if nTri ≤ m.count then
    let lastIdx := (m.count + (u32 - 1)) % u32
    let tmpTri := m.triStore.getD lastIdx default
    let ts := (m.triStore.set lastIdx (m.triStore.getD nTri default)).set
      nTri tmpTri
    let fs :=
      if m.hasVertexNormals = false then
        let tmpNorm := m.faceNormStore.getD lastIdx default
        (m.faceNormStore.set lastIdx (m.faceNormStore.getD nTri default)).set
          nTri tmpNorm
      else m.faceNormStore
    { triStore := ts, faceNormStore := fs,
      hasVertexNormals := m.hasVertexNormals,
      count := (m.count + (u32 - 1)) % u32 }
  else m

/-! Helper lemmas. -/

@[simp] theorem sub_x (a b : Vector3) : (a - b).x = a.x - b.x := rfl

@[simp] theorem sub_y (a b : Vector3) : (a - b).y = a.y - b.y := rfl

@[simp] theorem sub_z (a b : Vector3) : (a - b).z = a.z - b.z := rfl

theorem norm2_nonneg (v : Vector3) : 0 ≤ norm2 v :=
  add_nonneg (add_nonneg (mul_self_nonneg _) (mul_self_nonneg _))
    (mul_self_nonneg _)

theorem firstEdgeSq_nonneg (s : Soup) (j : Nat) : 0 ≤ firstEdgeSq s j :=
  norm2_nonneg _

/-- On a fresh soup (cache `-1`) with at least two triangles, the value the
code stores (squared) is the first squared edge length of the single
LCG-selected first sample. -/
theorem resolutionSqOf_fresh (vl : List Vector3) (tl : List Triangle)
    (s : Nat) (h2 : 2 ≤ tl.length) :
    resolutionSqOf (freshSoup vl tl) s =
      firstEdgeSq (freshSoup vl tl) (lcgStep s % tl.length) := by
  have hns : 1 ≤ (if tl.length / 2 > 333 then 333 else tl.length / 2) := by
    split <;> omega
  simp only [resolutionSqOf, computeResolution, freshSoup]
  rw [if_neg (by push_neg; refine ⟨by omega, fun h => absurd h (by norm_num)⟩),
    if_neg (by simp), if_pos hns]
  rfl

/-! Claim theorems. -/

/-- Claim C1: the spec says `ODOverdrawGraph` fails with the
not-initialized/internal error exactly when a prerequisite step (`ODInit`
or `ODSetSoup`) was skipped.  In the code, `ODInit` never sets
`s_bInitialized`, so even after `ODInit` and `ODSetSoup` succeed and the
cluster array size matches the soup's triangle count, `ODOverdrawGraph`
with the `TOOTLE_OVERDRAW_RAYTRACE` optimizer still returns
`TOOTLE_INTERNAL_ERROR`: the code contradicts the claim (and its own
comment at the guard). -/
theorem odOverdrawGraph_errors_despite_prerequisites
    (pSoup : Soup) (clusters clusterStart : List Int)
    (tbl : List (List Nat)) (graphIn : List TEdge) (allocOk : Bool)
    (_hsize : clusters.length = pSoup.t.length) :
    odOverdrawGraph ((odSetSoup (odInit odStartState).1 pSoup).1)
        clusters clusterStart tbl graphIn
        TootleOverdrawOptimizer.TOOTLE_OVERDRAW_RAYTRACE allocOk =
      (TootleResult.TOOTLE_INTERNAL_ERROR, graphIn) := by
  simp [odOverdrawGraph, odSetSoup, odInit, odStartState]

/-- Witness for C1 at a concrete soup and cluster array of matching size. -/
theorem odOverdrawGraph_errors_despite_prerequisites_witness :
    ([0, 0] : List Int).length = (freshSoup cexVerts cexTris).t.length ∧
    odOverdrawGraph
        ((odSetSoup (odInit odStartState).1 (freshSoup cexVerts cexTris)).1)
        [0, 0] [0, 0, 2] [] []
        TootleOverdrawOptimizer.TOOTLE_OVERDRAW_RAYTRACE true =
      (TootleResult.TOOTLE_INTERNAL_ERROR, []) :=
  ⟨rfl, odOverdrawGraph_errors_despite_prerequisites
    (freshSoup cexVerts cexTris) [0, 0] [0, 0, 2] [] [] true rfl⟩

/-- Claim C2: the spec says `ComputeResolution` stores the square root of
the MEDIAN of the sampled squared edge lengths.  The code reserves capacity
with `Reserve` but never grows `samples.size()` past 0, so `nth_element`
sorts an empty range and `samples[samples.size()/2] = samples[0]` is the
first squared edge length of the first sampled triangle.  On the concrete
fresh two-triangle soup below (first call of the process, LCG state 0) the
code stores `sqrt 1 = 1` while the spec's median (over the identical
sample set) is `4`, i.e. `sqrt 4 = 2`. -/
theorem computeResolution_stores_first_sample_not_median :
    resolutionSqOf (freshSoup cexVerts cexTris) 0 = 1 ∧
    resolutionSpecMedianSq (freshSoup cexVerts cexTris) 0 = 4 ∧
    Real.sqrt ((resolutionSqOf (freshSoup cexVerts cexTris) 0 : ℚ) : ℝ) ≠
      Real.sqrt ((resolutionSpecMedianSq (freshSoup cexVerts cexTris) 0 : ℚ) : ℝ) := by
  have hA : resolutionSqOf (freshSoup cexVerts cexTris) 0 = 1 := by
    norm_num [resolutionSqOf, computeResolution, freshSoup, cexVerts, cexTris,
      firstEdgeSq, vAt, tAt, lcgStep, u32, norm2]
  have hB : resolutionSpecMedianSq (freshSoup cexVerts cexTris) 0 = 4 := by
    norm_num [resolutionSpecMedianSq, freshSoup, cexVerts, cexTris, lcgStates,
      lcgStep, u32, triEdgeSamples, vAt, tAt, norm2, sortQ, insertQ]
  refine ⟨hA, hB, ?_⟩
  rw [hA, hB]
  have h4 : Real.sqrt ((4 : ℚ) : ℝ) = 2 := by
    rw [show ((4 : ℚ) : ℝ) = 2 ^ 2 by norm_num]
    exact Real.sqrt_sq (by norm_num)
  have h1 : Real.sqrt ((1 : ℚ) : ℝ) = 1 := by
    rw [show ((1 : ℚ) : ℝ) = 1 by norm_num]
    exact Real.sqrt_one
  rw [h1, h4]
  norm_num

/-- Claim C3 counterexample: two fresh soups built from identical vertex
and triangle data, resolution computed first on one and then on the other
(the second call continuing from the LCG state the first left behind,
since `randq` is a function-local `static`), store different resolutions:
`sqrt 1 = 1` versus `sqrt 9 = 3`. -/
theorem computeResolution_not_call_scoped :
    Real.sqrt ((resolutionSqOf (freshSoup cexVerts cexTris) 0 : ℚ) : ℝ) ≠
      Real.sqrt ((resolutionSqOf (freshSoup cexVerts cexTris)
        (lcgAfterRun (freshSoup cexVerts cexTris) 0) : ℚ) : ℝ) := by
  have hA : resolutionSqOf (freshSoup cexVerts cexTris) 0 = 1 := by
    norm_num [resolutionSqOf, computeResolution, freshSoup, cexVerts, cexTris,
      firstEdgeSq, vAt, tAt, lcgStep, u32, norm2]
  have hS : lcgAfterRun (freshSoup cexVerts cexTris) 0 = 1013904223 := by
    norm_num [lcgAfterRun, computeResolution, freshSoup, cexVerts, cexTris,
      lcgStep, u32, Function.iterate_one]
  have hB : resolutionSqOf (freshSoup cexVerts cexTris) 1013904223 = 9 := by
    norm_num [resolutionSqOf, computeResolution, freshSoup, cexVerts, cexTris,
      firstEdgeSq, vAt, tAt, lcgStep, u32, norm2]
  rw [hA, hS, hB, show ((9 : ℚ) : ℝ) = 3 ^ 2 by norm_num,
    Real.sqrt_sq (by norm_num), show ((1 : ℚ) : ℝ) = 1 by norm_num,
    Real.sqrt_one]
  norm_num

/-- Claim C3 amended: the LCG state is process-scoped (a function-local
`static` seeded 0 at process start), not call-scoped, and on a fresh soup
with at least two triangles the stored resolution is the square root of the
first squared edge length of the LCG-selected first sample; hence two runs
on identical soup data yield bit-identical resolutions precisely when the
first-sample squared edge lengths selected by their respective incoming LCG
states coincide (in particular whenever the incoming states are equal). -/
theorem computeResolution_state_dependence (vl : List Vector3)
    (tl : List Triangle) (s1 s2 : Nat) (h2 : 2 ≤ tl.length) :
    (Real.sqrt ((resolutionSqOf (freshSoup vl tl) s1 : ℚ) : ℝ) =
      Real.sqrt ((resolutionSqOf (freshSoup vl tl) s2 : ℚ) : ℝ)) ↔
    firstEdgeSq (freshSoup vl tl) (lcgStep s1 % tl.length) =
      firstEdgeSq (freshSoup vl tl) (lcgStep s2 % tl.length) := by
  rw [resolutionSqOf_fresh vl tl s1 h2, resolutionSqOf_fresh vl tl s2 h2,
    Real.sqrt_inj (by exact_mod_cast firstEdgeSq_nonneg _ _)
      (by exact_mod_cast firstEdgeSq_nonneg _ _)]
  exact_mod_cast Iff.rfl

/-- Witness for the amended C3 at the concrete counterexample data. -/
theorem computeResolution_state_dependence_witness :
    (2 ≤ cexTris.length) ∧
    firstEdgeSq (freshSoup cexVerts cexTris) (lcgStep 0 % cexTris.length) ≠
      firstEdgeSq (freshSoup cexVerts cexTris)
        (lcgStep 1013904223 % cexTris.length) ∧
    Real.sqrt ((resolutionSqOf (freshSoup cexVerts cexTris) 0 : ℚ) : ℝ) ≠
      Real.sqrt ((resolutionSqOf (freshSoup cexVerts cexTris) 1013904223 : ℚ) : ℝ) := by
  have hne : firstEdgeSq (freshSoup cexVerts cexTris) (lcgStep 0 % cexTris.length) ≠
      firstEdgeSq (freshSoup cexVerts cexTris)
        (lcgStep 1013904223 % cexTris.length) := by
    norm_num [firstEdgeSq, freshSoup, cexVerts, cexTris, vAt, tAt, lcgStep,
      u32, norm2]
  exact ⟨by norm_num [cexTris], hne, fun h =>
    hne ((computeResolution_state_dependence cexVerts cexTris 0 1013904223
      (by norm_num [cexTris])).mp h)⟩

/-- Membership in the extracted overdraw graph. -/
theorem mem_extractGraph (tbl : List (List Nat)) (n : Nat) (e : TEdge) :
    e ∈ extractGraph tbl n ↔
      ∃ i, i < n ∧ ∃ j, j < n ∧ tableAt tbl j i < tableAt tbl i j ∧
        e = ⟨i, j, (tableAt tbl i j : Int) - (tableAt tbl j i : Int)⟩ := by
  simp only [extractGraph, List.mem_flatMap, List.mem_range]
  constructor
  · rintro ⟨i, hi, j, hj, he⟩
    split at he
    · next hgt =>
        simp only [List.mem_singleton] at he
        exact ⟨i, hi, j, hj, hgt, he⟩
    · simp at he
  · rintro ⟨i, hi, j, hj, hgt, rfl⟩
    exact ⟨i, hi, j, hj, by rw [if_pos hgt]; exact List.mem_singleton.mpr rfl⟩

/-- Claim C4: when `ODComputeGraphRaytrace` returns `TOOTLE_OK`, the edge
list it emits contains, for every ordered pair `(i, j)` of distinct
clusters, an edge from `i` to `j` of cost `O[i][j] - O[j][i]` exactly when
that difference is positive, and it never contains a self-edge or an edge
of non-positive cost. -/
theorem odComputeGraphRaytrace_edges (pSoup : Soup) (clusters : List Int)
    (tbl : List (List Nat)) (n : Nat) (allocOk : Bool) (out : List TEdge)
    (h : odComputeGraphRaytrace pSoup clusters tbl n [] allocOk =
      (TootleResult.TOOTLE_OK, out)) :
    (∀ i j, i < n → j < n → i ≠ j →
      ((∃ e ∈ out, e.efrom = i ∧ e.eto = j ∧
          e.cost = (tableAt tbl i j : Int) - (tableAt tbl j i : Int)) ↔
        0 < (tableAt tbl i j : Int) - (tableAt tbl j i : Int))) ∧
    (∀ e ∈ out, e.efrom ≠ e.eto ∧ 0 < e.cost) := by
  have hout : out = extractGraph tbl n := by
    by_cases hA : allocOk = false
    · rw [odComputeGraphRaytrace, if_pos hA] at h
      exact absurd (congrArg Prod.fst h) (by simp)
    · rw [odComputeGraphRaytrace, if_neg hA] at h
      simpa using (congrArg Prod.snd h).symm
  subst hout
  constructor
  · intro i j hi hj hij
    constructor
    · rintro ⟨e, he, hfrom, hto, _⟩
      rcases (mem_extractGraph tbl n e).mp he with ⟨i', _, j', _, hgt, rfl⟩
      simp only at hfrom hto
      subst hfrom; subst hto
      omega
    · intro hpos
      refine ⟨⟨i, j, (tableAt tbl i j : Int) - (tableAt tbl j i : Int)⟩,
        (mem_extractGraph tbl n _).mpr ⟨i, hi, j, hj, by omega, rfl⟩,
        rfl, rfl, rfl⟩
  · intro e he
    rcases (mem_extractGraph tbl n e).mp he with ⟨i, _, j, _, hgt, rfl⟩
    refine ⟨fun hEq => ?_, by simp; omega⟩
    simp only at hEq
    subst hEq
    omega

/-- Witness for C4 on a concrete 2x2 overdraw table. -/
theorem odComputeGraphRaytrace_edges_witness :
    ((∃ e ∈ extractGraph [[0, 5], [1, 0]] 2, e.efrom = 0 ∧ e.eto = 1 ∧
        e.cost = (tableAt [[0, 5], [1, 0]] 0 1 : Int) -
          (tableAt [[0, 5], [1, 0]] 1 0 : Int)) ↔
      0 < (tableAt [[0, 5], [1, 0]] 0 1 : Int) -
        (tableAt [[0, 5], [1, 0]] 1 0 : Int)) ∧
    (∀ e ∈ extractGraph [[0, 5], [1, 0]] 2, e.efrom ≠ e.eto ∧ 0 < e.cost) :=
  ⟨(odComputeGraphRaytrace_edges (freshSoup cexVerts cexTris) [0, 0]
      [[0, 5], [1, 0]] 2 true (extractGraph [[0, 5], [1, 0]] 2) rfl).1
      0 1 (by norm_num) (by norm_num) (by norm_num),
   (odComputeGraphRaytrace_edges (freshSoup cexVerts cexTris) [0, 0]
      [[0, 5], [1, 0]] 2 true (extractGraph [[0, 5], [1, 0]] 2) rfl).2⟩

/-- Claim C6: a mesh built by `CreateMesh` has face normals only
(`m_pNormals` stays NULL), and `Transform` maps every vertex position
through the forward point transform while leaving every face normal exactly
as it was before the call: the face-normal branch overwrites the
transformed value with the untransformed temporary. -/
theorem transform_createMesh_face_normals_unchanged
    (pPositions pNormals : List Vector3) (nVertices nTriangleCount : Nat)
    (pIndices : List Nat) (fPoint fVector normalizeF : Vector3 → Vector3) :
    (transform (createMesh pPositions pNormals nVertices nTriangleCount
        pIndices) fPoint fVector normalizeF).positions =
      (createMesh pPositions pNormals nVertices nTriangleCount
        pIndices).positions.map fPoint ∧
    (transform (createMesh pPositions pNormals nVertices nTriangleCount
        pIndices) fPoint fVector normalizeF).faceNormals =
      (createMesh pPositions pNormals nVertices nTriangleCount
        pIndices).faceNormals := by
  constructor
  · rfl
  · show List.map _ _ = _
    simp

/-- Claim C8: for a mesh built by `CreateMesh` over in-range indices, the
pointer subtraction in `GetInterpolants` recovers for triangle `k` exactly
the original indices `I[3k], I[3k+1], I[3k+2]`, and `GetIndexInMesh` on the
`k`-th triangle returns `k`. -/
theorem getInterpolants_recovers_indices (pPositions pNormals : List Vector3)
    (nVertices nTriangleCount : Nat) (pIndices : List Nat) (base k : Nat)
    (_hlen : 3 * nTriangleCount ≤ pIndices.length)
    (_hvalid : ∀ i ∈ pIndices, i < nVertices)
    (hk : k < nTriangleCount) :
    getInterpolantsIndices (createMesh pPositions pNormals nVertices
        nTriangleCount pIndices) k =
      (pIndices.getD (3 * k) 0, pIndices.getD (3 * k + 1) 0,
        pIndices.getD (3 * k + 2) 0) ∧
    getIndexInMesh base (triangleAddrOf base k) = k := by
  constructor
  · have hlt : k < ((List.range nTriangleCount).map (fun i =>
        (⟨3 * pIndices.getD (3 * i) 0, 3 * pIndices.getD (3 * i + 1) 0,
          3 * pIndices.getD (3 * i + 2) 0⟩ : JRTTri))).length := by
      simpa using hk
    simp only [getInterpolantsIndices, createMesh, List.getD_eq_getElem _ _ hlt,
      List.getElem_map, List.getElem_range]
    refine Prod.ext ?_ (Prod.ext ?_ ?_) <;>
      exact Nat.mul_div_cancel_left _ (by norm_num)
  · simp [getIndexInMesh, triangleAddrOf]

/-- Witness for C8 at a concrete mesh. -/
theorem getInterpolants_recovers_indices_witness :
    getInterpolantsIndices (createMesh cexVerts [] 4 2 [0, 1, 2, 1, 2, 3]) 1 =
      (([0, 1, 2, 1, 2, 3] : List Nat).getD 3 0,
        ([0, 1, 2, 1, 2, 3] : List Nat).getD 4 0,
        ([0, 1, 2, 1, 2, 3] : List Nat).getD 5 0) ∧
    getIndexInMesh 5 (triangleAddrOf 5 1) = 1 :=
  getInterpolants_recovers_indices cexVerts [] 4 2 [0, 1, 2, 1, 2, 3] 5 1
    (by norm_num) (by decide) (by norm_num)

/-- Claim C9: `Array<T>::PushBack` is atomic: on success it appends exactly
the given value at the end and returns 1 (size grows by one, prior elements
unchanged); when the underlying `push_back` throws, it returns 0 and leaves
the array unchanged. -/
theorem pushBack_atomic {α : Type} (arr : List α) (value : α) (d : α) :
    (pushBack arr value true = (arr ++ [value], 1) ∧
      (arr ++ [value]).length = arr.length + 1 ∧
      (∀ i, i < arr.length → (arr ++ [value]).getD i d = arr.getD i d) ∧
      (arr ++ [value]).getD arr.length d = value) ∧
    pushBack arr value false = (arr, 0) := by
  refine ⟨⟨rfl, by simp, fun i hi => ?_, ?_⟩, rfl⟩
  · rw [List.getD_eq_getElem _ _ (by simp; omega),
      List.getD_eq_getElem _ _ hi, List.getElem_append_left hi]
  · rw [List.getD_eq_getElem _ _ (by simp),
      List.getElem_append_right (Nat.le_refl _)]
    simp

/-- Witness for C9 at a concrete array. -/
theorem pushBack_atomic_witness :
    (pushBack [1, 2] 7 true = ([1, 2, 7], 1) ∧
      pushBack [1, 2] 7 false = ([1, 2], 0)) ∧
    (([1, 2] ++ [7]) : List Nat).getD 0 0 = ([1, 2] : List Nat).getD 0 0 :=
  ⟨⟨(pushBack_atomic [1, 2] 7 0).1.1, (pushBack_atomic [1, 2] 7 0).2⟩,
    (pushBack_atomic [1, 2] 7 0).1.2.2.1 0 (by norm_num)⟩

/-- The normal-accumulation step preserves the length of the normal
array. -/
theorem length_accumulateNormal (vl : List Vector3) (ns : List Vector3)
    (tri : Triangle) : (accumulateNormal vl ns tri).length = ns.length := by
  simp [accumulateNormal, addAt]

/-- The whole accumulation loop preserves the length of the normal array. -/
theorem length_foldl_accumulateNormal (vl : List Vector3)
    (tl : List Triangle) (base : List Vector3) :
    (tl.foldl (accumulateNormal vl) base).length = base.length := by
  induction tl generalizing base with
  | nil => rfl
  | cons tri rest ih => rw [List.foldl_cons, ih, length_accumulateNormal]

/-- Claim C10: `Soup::ComputeNormals` with `force = false` is a no-op
returning 1 whenever the normal array already has vertex-array size; it
never changes vertices, triangles or the resolution cache; and after one
successful call a second `force = false` call leaves the soup exactly as
the first call left it. -/
theorem computeNormals_noop_idempotent (s : Soup) (allocOk allocOk2 : Bool)
    (normalizeF normalizeF2 : Vector3 → Vector3) :
    (s.n.length = s.v.length → computeNormals s false allocOk normalizeF = (s, 1)) ∧
    ((computeNormals s false allocOk normalizeF).1.v = s.v ∧
      (computeNormals s false allocOk normalizeF).1.t = s.t ∧
      (computeNormals s false allocOk normalizeF).1.rsq = s.rsq) ∧
    ((computeNormals s false allocOk normalizeF).2 = 1 →
      computeNormals (computeNormals s false allocOk normalizeF).1 false
          allocOk2 normalizeF2 =
        ((computeNormals s false allocOk normalizeF).1, 1)) := by
  by_cases h1 : s.n.length = s.v.length
  · simp [computeNormals, h1]
  · refine ⟨fun h => absurd h h1, ?_, ?_⟩
    · by_cases h2 : allocOk = false <;>
        simp [computeNormals, h1, h2]
    · intro hret
      by_cases h2 : allocOk = false
      · rw [computeNormals, if_neg (by simp [h1]), if_pos h2] at hret
        exact absurd hret (by simp)
      · have hres : computeNormals s false allocOk normalizeF =
            ({ s with n := ((s.t.foldl (accumulateNormal s.v)
              (List.replicate s.v.length default)).map normalizeF) }, 1) := by
          rw [computeNormals, if_neg (by simp [h1]), if_neg h2]
        rw [hres]
        have hlen : ((s.t.foldl (accumulateNormal s.v)
            (List.replicate s.v.length default)).map normalizeF).length =
            s.v.length := by
          rw [List.length_map, length_foldl_accumulateNormal,
            List.length_replicate]
        rw [computeNormals, if_pos (by exact ⟨hlen, rfl⟩)]

/-- Witness for C10 at a concrete soup whose normal array already matches
the vertex array in size. -/
theorem computeNormals_noop_idempotent_witness :
    computeNormals ⟨cexVerts, cexVerts, cexTris, -1⟩ false true id =
      (⟨cexVerts, cexVerts, cexTris, -1⟩, 1) :=
  (computeNormals_noop_idempotent ⟨cexVerts, cexVerts, cexTris, -1⟩
    true true id id).1 rfl

/-- The second endpoint of any directed edge of a triangle is a vertex of
that triangle. -/
theorem snd_mem_triVerts (tri : Triangle) (e : Nat × Nat)
    (he : e ∈ triEdges tri) : e.2 ∈ triVerts tri := by
  simp only [triEdges, List.mem_cons, List.not_mem_nil, or_false] at he
  rcases he with rfl | rfl | rfl <;> simp [triVerts]

/-- What membership in one across-edge row implies: the emitted face is not
the row's own face, and the edge's second endpoint is one of its vertices. -/
theorem mem_aeRow (tris : List Triangle) (vt : List (List Nat)) (f : Nat)
    (tri : Triangle) (af : Nat) (haf : af ∈ aeRow tris vt f tri) :
    af ≠ f ∧ ∃ e ∈ triEdges tri, e.2 ∈ triVerts (tris.getD af default) := by
  simp only [aeRow, List.mem_flatMap] at haf
  obtain ⟨e, he, haf⟩ := haf
  obtain ⟨af', _, hin⟩ := haf
  split at hin
  · next hne =>
      simp only [List.mem_filterMap] at hin
      obtain ⟨w, hw, hcond⟩ := hin
      split at hcond
      · next hweq =>
          obtain rfl : af' = af := Option.some_injective _ hcond
          subst hweq
          exact ⟨hne, e, he, hw⟩
      · exact absurd hcond (by simp)
  · exact absurd hin (by simp)

/-- Claim C5: after `ComputeVT` and `ComputeAE` succeed, `|AE| = n_t`, and
every `t' ∈ AE[t]` satisfies `t' ≠ t` and shares at least one vertex index
with `t`. -/
theorem computeAE_invariants (tris : List Triangle) (nv : Nat)
    (vt : List (List Nat)) (_hvt : vt = computeVT tris nv)
    (_hvalid : ∀ tri ∈ tris, tri.i0 < nv ∧ tri.i1 < nv ∧ tri.i2 < nv) :
    (computeAE tris vt).length = tris.length ∧
    ∀ f af, af ∈ (computeAE tris vt).getD f [] →
      af ≠ f ∧ ∃ w, w ∈ triVerts (tris.getD f default) ∧
        w ∈ triVerts (tris.getD af default) := by
  have hlen : (computeAE tris vt).length = tris.length := by
    simp [computeAE]
  refine ⟨hlen, fun f af haf => ?_⟩
  by_cases hf : f < tris.length
  · have hrow : (computeAE tris vt).getD f [] =
        aeRow tris vt f (tris.getD f default) := by
      rw [List.getD_eq_getElem _ _ (by rw [hlen]; exact hf)]
      simp [computeAE]
    rw [hrow] at haf
    obtain ⟨hne, e, he, hv⟩ := mem_aeRow tris vt f (tris.getD f default) af haf
    exact ⟨hne, e.2, snd_mem_triVerts _ e he, hv⟩
  · rw [List.getD_eq_default _ _ (by rw [hlen]; omega)] at haf
    exact absurd haf (by simp)

/-- Witness for C5 at a concrete two-triangle mesh. -/
theorem computeAE_invariants_witness :
    (computeAE [⟨0, 1, 2⟩, ⟨1, 2, 3⟩]
        (computeVT [⟨0, 1, 2⟩, ⟨1, 2, 3⟩] 4)).length = 2 ∧
    ∀ f af, af ∈ (computeAE [⟨0, 1, 2⟩, ⟨1, 2, 3⟩]
        (computeVT [⟨0, 1, 2⟩, ⟨1, 2, 3⟩] 4)).getD f [] →
      af ≠ f ∧ ∃ w,
        w ∈ triVerts (([⟨0, 1, 2⟩, ⟨1, 2, 3⟩] : List Triangle).getD f default) ∧
        w ∈ triVerts (([⟨0, 1, 2⟩, ⟨1, 2, 3⟩] : List Triangle).getD af default) :=
  computeAE_invariants [⟨0, 1, 2⟩, ⟨1, 2, 3⟩] 4
    (computeVT [⟨0, 1, 2⟩, ⟨1, 2, 3⟩] 4) rfl (by decide)

/-- `m_nTriangleCount - 1` in 32-bit unsigned arithmetic agrees with the
mathematical `c - 1` while the count is positive and below `2 ^ 32`. -/
theorem lastIdx_mod (c : Nat) (h1 : 1 ≤ c) (h2 : c < u32) :
    (c + (u32 - 1)) % u32 = c - 1 := by
  unfold u32 at *
  omega

/-- Swapping slot `i` with slot `c - 1` and then dropping the last slot of
the live prefix removes exactly the element at slot `i`, as a multiset. -/
theorem take_swap_multiset {α : Type} [DecidableEq α] (l : List α)
    (i c : Nat) (hic : i < c) (hcl : c ≤ l.length) (d : α) :
    (↑(((l.set (c - 1) (l.getD i d)).set i (l.getD (c - 1) d)).take (c - 1)) :
        Multiset α) =
      (↑(l.take c) : Multiset α).erase (l.getD i d) := by
  have hc1 : c - 1 < l.length := by omega
  have hil : i < l.length := by omega
  have hxe : l.getD i d = l[i] := List.getD_eq_getElem l d hil
  have hye : l.getD (c - 1) d = l[c - 1] := List.getD_eq_getElem l d hc1
  have hstep : ((l.set (c - 1) (l.getD i d)).set i (l.getD (c - 1) d)).take
      (c - 1) = (l.take (c - 1)).set i (l.getD (c - 1) d) := by
    rw [List.set_take, List.set_take,
      List.set_eq_of_length_le (l := l.take (c - 1))
        (by rw [List.length_take]; omega)]
  have hdec : l.take c = l.take (c - 1) ++ [l[c - 1]] := by
    conv_lhs => rw [show c = c - 1 + 1 by omega]
    rw [← List.take_concat_get l (c - 1) hc1, List.concat_eq_append]
  rw [hstep, hdec]
  by_cases hieq : i = c - 1
  · subst hieq
    rw [List.set_eq_of_length_le
      (by rw [List.length_take_of_le (by omega)]), hxe]
    rw [← Multiset.coe_add, Multiset.coe_singleton, add_comm,
      Multiset.singleton_add, Multiset.erase_cons_head]
  · have hilt : i < c - 1 := by omega
    have hiT : i < (l.take (c - 1)).length := by
      rw [List.length_take_of_le (by omega)]; omega
    have hTi : (l.take (c - 1))[i] = l[i] := List.getElem_take l
    have hxT : l.getD i d ∈ l.take (c - 1) := by
      rw [hxe, ← hTi]; exact List.getElem_mem hiT
    rw [List.set_eq_take_cons_drop _ hiT]
    conv_rhs => rw [show l.take (c - 1) =
      (l.take (c - 1)).take i ++ (l.take (c - 1))[i] ::
        (l.take (c - 1)).drop (i + 1) from by
      conv_lhs => rw [← List.take_append_drop i (l.take (c - 1))]
      rw [List.drop_eq_getElem_cons hiT]]
    rw [hTi, ← hxe]
    rw [show ((↑((l.take (c - 1)).take i ++ l.getD (c - 1) d ::
        (l.take (c - 1)).drop (i + 1)) : Multiset α)) =
      (↑((l.take (c - 1)).take i) : Multiset α) +
        (l.getD (c - 1) d ::ₘ ↑((l.take (c - 1)).drop (i + 1))) from by
      rw [Multiset.cons_coe, Multiset.coe_add]]
    rw [List.append_assoc, List.cons_append]
    rw [show ((↑((l.take (c - 1)).take i ++ (l.getD i d ::
        ((l.take (c - 1)).drop (i + 1) ++ [l[c - 1]]))) : Multiset α)) =
      (↑((l.take (c - 1)).take i) : Multiset α) +
        (l.getD i d ::ₘ ↑((l.take (c - 1)).drop (i + 1) ++ [l[c - 1]])) from by
      rw [Multiset.cons_coe, Multiset.coe_add]]
    rw [Multiset.erase_add_right_pos _ (Multiset.mem_cons_self _ _),
      Multiset.erase_cons_head]
    rw [show ((↑((l.take (c - 1)).drop (i + 1) ++ [l[c - 1]]) : Multiset α)) =
      (↑((l.take (c - 1)).drop (i + 1)) : Multiset α) + {l[c - 1]} from by
      rw [← Multiset.coe_singleton, Multiset.coe_add]]
    rw [hye, ← Multiset.singleton_add]
    abel

/-- Claim C7: `RemoveTriangle(nTri)` guards with `<=` where `<` is
intended: every `nTri ≤ count` passes the guard and the count is
decremented (in `unsigned` arithmetic), so the out-of-range index
`nTri = count` is not rejected; the call is a no-op exactly for
`nTri > count`; and for in-range `nTri < count` the multiset of live
triangles (and of live face normals, when there are no vertex normals)
afterwards equals the previous one minus the removed entry. -/
theorem removeTriangle_guard_and_effect (m : JRTMeshStore) (nTri : Nat)
    (hcw : m.count < u32) :
    (nTri ≤ m.count →
      (removeTriangle m nTri).count = (m.count + (u32 - 1)) % u32) ∧
    (1 ≤ m.count → nTri ≤ m.count →
      (removeTriangle m nTri).count = m.count - 1) ∧
    (removeTriangle m nTri = m ↔ m.count < nTri) ∧
    (nTri < m.count → m.count ≤ m.triStore.length →
      (↑((removeTriangle m nTri).triStore.take (m.count - 1)) :
          Multiset JRTTri) =
        (↑(m.triStore.take m.count) : Multiset JRTTri).erase
          (m.triStore.getD nTri default)) ∧
    (nTri < m.count → m.hasVertexNormals = false →
      m.count ≤ m.faceNormStore.length →
      (↑((removeTriangle m nTri).faceNormStore.take (m.count - 1)) :
          Multiset Vector3) =
        (↑(m.faceNormStore.take m.count) : Multiset Vector3).erase
          (m.faceNormStore.getD nTri default)) := by
  refine ⟨fun hle => ?_, fun h1 hle => ?_, ⟨fun heq => ?_, fun hgt => ?_⟩,
    fun hlt hcl => ?_, fun hlt hvn hcl => ?_⟩
  · rw [removeTriangle, if_pos hle]
  · rw [removeTriangle, if_pos hle]
    exact lastIdx_mod m.count h1 hcw
  · by_contra hnot
    push_neg at hnot
    rw [removeTriangle, if_pos hnot] at heq
    have hc := congrArg JRTMeshStore.count heq
    simp only at hc
    unfold u32 at hc hcw
    omega
  · rw [removeTriangle, if_neg (by omega)]
  · have h1 : 1 ≤ m.count := by omega
    rw [removeTriangle, if_pos (by omega)]
    simp only
    rw [lastIdx_mod m.count h1 hcw]
    exact take_swap_multiset m.triStore nTri m.count hlt hcl default
  · have h1 : 1 ≤ m.count := by omega
    rw [removeTriangle, if_pos (by omega)]
    simp only
    rw [lastIdx_mod m.count h1 hcw, if_pos hvn]
    exact take_swap_multiset m.faceNormStore nTri m.count hlt hcl default

/-- Witness for C7 at a concrete three-triangle store. -/
theorem removeTriangle_guard_and_effect_witness :
    ((removeTriangle ⟨[⟨0, 0, 0⟩, ⟨3, 3, 3⟩, ⟨6, 6, 6⟩], [], false, 3⟩
        3).count = 2) ∧
    (↑((removeTriangle ⟨[⟨0, 0, 0⟩, ⟨3, 3, 3⟩, ⟨6, 6, 6⟩], [], false, 3⟩
        0).triStore.take 2) : Multiset JRTTri) =
      (↑(([⟨0, 0, 0⟩, ⟨3, 3, 3⟩, ⟨6, 6, 6⟩] : List JRTTri).take 3) :
          Multiset JRTTri).erase
        (([⟨0, 0, 0⟩, ⟨3, 3, 3⟩, ⟨6, 6, 6⟩] : List JRTTri).getD 0 default) :=
  ⟨(removeTriangle_guard_and_effect
      ⟨[⟨0, 0, 0⟩, ⟨3, 3, 3⟩, ⟨6, 6, 6⟩], [], false, 3⟩ 3
      (by norm_num [u32])).2.1 (by norm_num) (by norm_num),
   (removeTriangle_guard_and_effect
      ⟨[⟨0, 0, 0⟩, ⟨3, 3, 3⟩, ⟨6, 6, 6⟩], [], false, 3⟩ 0
      (by norm_num [u32])).2.2.2.1 (by norm_num) (by norm_num)⟩

end TootleModel
